import Mathlib

/-!
Verification development for the shelf-tracker program (`shelf_track.py`).

The program is an interactive console application over a two-table SQLite
store (`book`, `author`).  We embed it shallowly:

* the database is a `Store` (a list of `Book` rows and a list of `Author`
  rows, in insertion order, which is the iteration order of the embedding);
* each SQL statement used by the program becomes a pure function on `Store`;
* the console is modelled by an input script `List String` (one element per
  `input()` call) and a result `R` carrying the final store, the list of
  printed messages (in order), and an `Outcome`: `ok` when the Python
  function returned normally, `cancelled` when it returned through the
  cancellation branch after reading the token `"x"`, and `exhausted` when
  the script ran out while the program was still waiting at a prompt;
* Python string operations are modelled on their ASCII behaviour
  (`str.strip`, `str.lower`, `str.title`, `str.isdigit`, `int(...)`), and
  SQLite `LIKE` is modelled with its ASCII-case-insensitive wildcard
  semantics.

Every loop of the source consumes at least one input per iteration, so each
`while` loop becomes a function that is structurally recursive on the
remaining input script.
-/

/-! ## Python string primitives (ASCII scope) -/

/-- ASCII decimal digit test: the characters accepted by the id validators
(the scope of this embedding for `str.isdigit`). -/
def pyIsDigitChar (c : Char) : Bool :=
  48 ≤ c.toNat && c.toNat ≤ 57

/-- Numeric value of an ASCII digit character. -/
def digitVal (c : Char) : Nat :=
  c.toNat - 48

/-- `str.isdigit`: non-empty and all digit characters. -/
def pyIsdigit (s : String) : Bool :=
  !s.data.isEmpty && s.data.all pyIsDigitChar

/-- The 4-digit id format check used at every id prompt of the source:
`s.isdigit() and len(s) == 4`. -/
def fourDigitOK (s : String) : Bool :=
  pyIsdigit s && s.data.length == 4

/-- Python whitespace stripped by `str.strip()` (ASCII scope). -/
def isSpaceChar (c : Char) : Bool :=
  c == ' ' || c == '\t' || c == '\n' || c == '\r' || c == '\x0b' || c == '\x0c'

/-- `str.strip()` on the character list. -/
def stripList (l : List Char) : List Char :=
  ((l.dropWhile isSpaceChar).reverse.dropWhile isSpaceChar).reverse

/-- `str.strip()`. -/
def pyStrip (s : String) : String :=
  ⟨stripList s.data⟩

/-- `str.lower()` (ASCII scope; `Char.toLower` lowercases exactly A–Z). -/
def pyLower (s : String) : String :=
  ⟨s.data.map Char.toLower⟩

/-- Worker for `str.title`: a letter is uppercased after a non-letter and
lowercased after a letter (ASCII scope). -/
def pyTitleGo : Bool → List Char → List Char
  | _, [] => []
  | prevAlpha, c :: cs =>
    (if c.isAlpha then (if prevAlpha then c.toLower else c.toUpper) else c)
      :: pyTitleGo c.isAlpha cs

/-- `str.title()`. -/
def pyTitle (s : String) : String :=
  ⟨pyTitleGo false s.data⟩

/-- `int(s)` on a string of decimal digits (the only shape reaching `int`
on the id paths, which are gated by `isdigit`). -/
def pyIntDigits (s : String) : Nat :=
  s.data.foldl (fun n c => 10 * n + digitVal c) 0

/-- Digit run with single underscores allowed between digits, after the
first digit (the tail of CPython's integer-literal grammar). -/
def uTail : List Char → Bool
  | [] => true
  | '_' :: [] => false
  | '_' :: c :: cs => pyIsDigitChar c && uTail cs
  | c :: cs => pyIsDigitChar c && uTail cs

/-- Digit run with single underscores allowed between digits. -/
def uDigits : List Char → Bool
  | [] => false
  | c :: cs => pyIsDigitChar c && uTail cs

/-- Value of a digit run, ignoring underscores. -/
def uVal (l : List Char) : Nat :=
  (l.filter (fun c => !(c == '_'))).foldl (fun n c => 10 * n + digitVal c) 0

/-- `int(s)` for an already-stripped string: optional sign followed by
digits (with CPython's underscore separators); `none` models the
`ValueError` caught by the quantity prompts. -/
def pyToInt (s : String) : Option Int :=
  match s.data with
  | '+' :: cs => if uDigits cs then some ((uVal cs : Nat) : Int) else none
  | '-' :: cs => if uDigits cs then some (-((uVal cs : Nat) : Int)) else none
  | cs => if uDigits cs then some ((uVal cs : Nat) : Int) else none

/-- `cancel_operation`: true when the (already collected) input lowers to
`"x"`.  The message it prints is recorded at each call site. -/
def cancel_operation (s : String) : Bool :=
  pyLower s == "x"

/-! ## Data model: the two tables -/

/-- A row of the `author` table. -/
structure Author where
  id : Nat
  name : String
  country : String
deriving Repr, DecidableEq

/-- A row of the `book` table. -/
structure Book where
  id : Nat
  title : String
  authorID : Nat
  qty : Int
deriving Repr, DecidableEq

/-- The database: both tables, rows in insertion order. -/
structure Store where
  books : List Book
  authors : List Author
deriving Repr, DecidableEq

/-- An empty database (first run, right after `CREATE TABLE`). -/
def Store.empty : Store :=
  ⟨[], []⟩

/-! ## SQL statements of the source as pure store operations -/

/-- `SELECT * FROM book WHERE id = ?` followed by `fetchone()`. -/
def findBook (st : Store) (bid : Nat) : Option Book :=
  st.books.find? (fun b => b.id == bid)

/-- `SELECT * FROM author WHERE id = ?` followed by `fetchone()`. -/
def findAuthor (st : Store) (aid : Nat) : Option Author :=
  st.authors.find? (fun a => a.id == aid)

/-- `SELECT * FROM book WHERE authorID = ?` followed by `fetchall()`. -/
def booksByAuthor (st : Store) (aid : Nat) : List Book :=
  st.books.filter (fun b => b.authorID == aid)

/-- `INSERT INTO book ...` (the workflows pre-check the primary key). -/
def insertBook (st : Store) (b : Book) : Store :=
  ⟨st.books ++ [b], st.authors⟩

/-- `INSERT INTO author ...` (the workflows pre-check the primary key). -/
def insertAuthor (st : Store) (a : Author) : Store :=
  ⟨st.books, st.authors ++ [a]⟩

/-- `UPDATE book SET qty = ? WHERE id = ?`. -/
def updateBookQty (st : Store) (bid : Nat) (q : Int) : Store :=
  ⟨st.books.map (fun b => if b.id == bid then ⟨b.id, b.title, b.authorID, q⟩ else b),
   st.authors⟩

/-- `UPDATE book SET title = ? WHERE id = ?`. -/
def updateBookTitle (st : Store) (bid : Nat) (t : String) : Store :=
  ⟨st.books.map (fun b => if b.id == bid then ⟨b.id, t, b.authorID, b.qty⟩ else b),
   st.authors⟩

/-- `UPDATE book SET authorID = ? WHERE id = ?`. -/
def updateBookAuthor (st : Store) (bid : Nat) (aid : Nat) : Store :=
  ⟨st.books.map (fun b => if b.id == bid then ⟨b.id, b.title, aid, b.qty⟩ else b),
   st.authors⟩

/-- `UPDATE author SET name = ?, country = ? WHERE id = ?`. -/
def updateAuthorNC (st : Store) (aid : Nat) (n c : String) : Store :=
  ⟨st.books,
   st.authors.map (fun a => if a.id == aid then ⟨a.id, n, c⟩ else a)⟩

/-- `DELETE FROM book WHERE id = ?`. -/
def deleteBookRow (st : Store) (bid : Nat) : Store :=
  ⟨st.books.filter (fun b => !(b.id == bid)), st.authors⟩

/-- `DELETE FROM author WHERE id = ?`. -/
def deleteAuthorRow (st : Store) (aid : Nat) : Store :=
  ⟨st.books, st.authors.filter (fun a => !(a.id == aid))⟩

/-! ## Console model -/

/-- How a workflow run ended. -/
inductive Outcome where
  | ok
  | cancelled
  | exhausted
deriving Repr, DecidableEq

/-- Result of running a workflow on an input script: the outcome, the final
store, and the printed messages in order (one entry per `print` call). -/
structure R where
  outcome : Outcome
  store : Store
  out : List String
deriving Repr, DecidableEq

/-- Record a message printed before the rest of the run. -/
def R.print (m : String) (r : R) : R :=
  ⟨r.outcome, r.store, m :: r.out⟩

/-- Result when the input script is exhausted at a prompt. -/
def outOfInput (st : Store) : R :=
  ⟨.exhausted, st, []⟩

/-- Result of the cancellation branch: `cancel_operation` prints its
message and the workflow returns. -/
def cancelledR (st : Store) : R :=
  ⟨.cancelled, st, ["Operation cancelled."]⟩

/-! ## `add_author` -/

/-- Country prompt of `add_author` (no cancellation check in the source):
empty input abandons the workflow, otherwise the row is inserted. -/
def addAuthorCountry (st : Store) (aid : Nat) (name : String) : List String → R
  | [] => outOfInput st
  | s :: _ =>
    let country := pyTitle (pyStrip s)
    if country == "" then ⟨.ok, st, ["Author country cannot be empty."]⟩
    else ⟨.ok, insertAuthor st ⟨aid, name, country⟩, ["Author added successfully.\n"]⟩

/-- Name prompt of `add_author` (no cancellation check in the source):
empty input abandons the workflow. -/
def addAuthorName (st : Store) (aid : Nat) : List String → R
  | [] => outOfInput st
  | s :: rest =>
    let name := pyTitle (pyStrip s)
    if name == "" then ⟨.ok, st, ["Author name cannot be empty."]⟩
    else addAuthorCountry st aid name rest

/-- Id prompt loop of `add_author`. -/
def addAuthorIdLoop (st : Store) : List String → R
  | [] => outOfInput st
  | s :: rest =>
    let t := pyStrip s
    if pyLower t == "x" then cancelledR st
    else if !fourDigitOK t then
      R.print ("Author ID must be a numeric value with exactly 4 digits.\n")
        (addAuthorIdLoop st rest)
    else
      let aid := pyIntDigits t
      match findAuthor st aid with
      | some _ =>
        R.print ("An author with that ID already exists. Try another.\n")
          (addAuthorIdLoop st rest)
      | none => addAuthorName st aid rest

/-- `add_author`. -/
def add_author (st : Store) (ins : List String) : R :=
  addAuthorIdLoop st ins

/-! ## `add_book_or_author` -/

/-- Quantity prompt loop of the add-book branch; on success the book row is
inserted. -/
def addBookQtyLoop (st : Store) (bid : Nat) (title : String) (aid : Nat) :
    List String → R
  | [] => outOfInput st
  | s :: rest =>
    let t := pyStrip s
    if cancel_operation t then cancelledR st
    else if t == "" then
      R.print ("Quantity is required.\n") (addBookQtyLoop st bid title aid rest)
    else
      match pyToInt t with
      | some q =>
        if 0 ≤ q then
          ⟨.ok, insertBook st ⟨bid, title, aid, q⟩, ["Book added successfully.\n"]⟩
        else
          R.print ("Quantity cannot be negative.\n") (addBookQtyLoop st bid title aid rest)
      | none =>
        R.print ("Invalid input. Please enter a numeric quantity.\n")
          (addBookQtyLoop st bid title aid rest)

/-- Author-id prompt loop of the add-book branch: the id must parse and
belong to an existing author before the flow continues. -/
def addBookAuthorIdLoop (st : Store) (bid : Nat) (title : String) :
    List String → R
  | [] => outOfInput st
  | s :: rest =>
    let t := pyStrip s
    if cancel_operation t then cancelledR st
    else if !fourDigitOK t then
      R.print ("Author ID must be a numeric value with exactly 4 digits.\n")
        (addBookAuthorIdLoop st bid title rest)
    else
      let aid := pyIntDigits t
      match findAuthor st aid with
      | some _ => addBookQtyLoop st bid title aid rest
      | none =>
        R.print ("No author found with that ID. Please enter a valid author ID.\n")
          (addBookAuthorIdLoop st bid title rest)

/-- Title prompt of the add-book branch: a single prompt; empty input
prints the error and abandons the whole workflow (`return`). -/
def addBookTitleStep (st : Store) (bid : Nat) : List String → R
  | [] => outOfInput st
  | s :: rest =>
    let t := pyStrip s
    if cancel_operation t then cancelledR st
    else if t == "" then ⟨.ok, st, ["Book title is required.\n"]⟩
    else addBookAuthorIdLoop st bid t rest

/-- Book-id prompt loop of the add-book branch. -/
def addBookIdLoop (st : Store) : List String → R
  | [] => outOfInput st
  | s :: rest =>
    let t := pyStrip s
    if cancel_operation t then cancelledR st
    else if !fourDigitOK t then
      R.print ("Book ID must be a numeric value with exactly 4 digits.\n")
        (addBookIdLoop st rest)
    else
      let bid := pyIntDigits t
      match findBook st bid with
      | some _ =>
        R.print ("A book with that ID already exists. Please enter a different ID.\n")
          (addBookIdLoop st rest)
      | none => addBookTitleStep st bid rest

/-- Choice loop of `add_book_or_author`. -/
def addChoiceLoop (st : Store) : List String → R
  | [] => outOfInput st
  | s :: rest =>
    let choice := pyLower (pyStrip s)
    if cancel_operation choice then cancelledR st
    else if choice == "book" then addBookIdLoop st rest
    else if choice == "author" then add_author st rest
    else
      R.print ("Invalid input. Please type \x27book\x27, \x27author\x27, or \x27x\x27 to cancel.\n")
        (addChoiceLoop st rest)

/-- `add_book_or_author`. -/
def add_book_or_author (st : Store) (ins : List String) : R :=
  addChoiceLoop st ins

/-! ## `update_book` -/

/-- Detail display printed after the book to update is selected. -/
def currentBookDetails (b : Book) : String :=
  "\nCurrent book details:\nID: " ++ toString b.id ++ "\nTitle: " ++ b.title ++
    "\nAuthorID: " ++ toString b.authorID ++ "\nQuantity: " ++ toString b.qty ++ "\n"

/-- Quantity prompt loop of the `qty` sub-choice. -/
def updQtyLoop (st : Store) (bid : Nat) : List String → R
  | [] => outOfInput st
  | s :: rest =>
    let t := pyStrip s
    if cancel_operation t then cancelledR st
    else if t == "" then
      R.print ("Quantity is required.\n") (updQtyLoop st bid rest)
    else
      match pyToInt t with
      | some q =>
        if q < 0 then
          R.print ("Quantity cannot be negative.\n") (updQtyLoop st bid rest)
        else
          ⟨.ok, updateBookQty st bid q, ["Quantity updated successfully.\n"]⟩
      | none =>
        R.print ("Invalid quantity. Please enter a number.\n") (updQtyLoop st bid rest)

/-- Title prompt loop of the `title` sub-choice: empty input re-prompts. -/
def updTitleLoop (st : Store) (bid : Nat) : List String → R
  | [] => outOfInput st
  | s :: rest =>
    let t := pyStrip s
    if cancel_operation t then cancelledR st
    else if t == "" then
      R.print ("Title cannot be empty. Please try again.\n") (updTitleLoop st bid rest)
    else
      ⟨.ok, updateBookTitle st bid t, ["Title updated successfully.\n"]⟩

/-- Author-id prompt loop of the `authorID` sub-choice: the new id must
parse and belong to an existing author before the book row is updated. -/
def updAuthorIdLoop (st : Store) (bid : Nat) : List String → R
  | [] => outOfInput st
  | s :: rest =>
    let t := pyStrip s
    if cancel_operation t then cancelledR st
    else if t == "" then
      R.print ("Author ID is required.\n") (updAuthorIdLoop st bid rest)
    else if !fourDigitOK t then
      R.print ("Author ID must be a 4-digit number.\n") (updAuthorIdLoop st bid rest)
    else
      let aid := pyIntDigits t
      match findAuthor st aid with
      | some _ =>
        ⟨.ok, updateBookAuthor st bid aid, ["Book\x27s author ID updated successfully.\n"]⟩
      | none =>
        R.print ("The author ID does not exist. Please enter an existing author ID.\n")
          (updAuthorIdLoop st bid rest)

/-- Country prompt of the `author` sub-choice: blank keeps the current
value; the stripped input is stored verbatim (no title-casing). -/
def updAuthorCountryPrompt (st : Store) (aid : Nat) (a : Author) (newName : String) :
    List String → R
  | [] => outOfInput st
  | s :: _ =>
    let c := pyStrip s
    if cancel_operation c then cancelledR st
    else
      let n := if newName == "" then a.name else newName
      let c := if c == "" then a.country else c
      ⟨.ok, updateAuthorNC st aid n c, ["Author information updated successfully.\n"]⟩

/-- Name prompt of the `author` sub-choice. -/
def updAuthorNamePrompt (st : Store) (aid : Nat) (a : Author) : List String → R
  | [] => outOfInput st
  | s :: rest =>
    let n := pyStrip s
    if cancel_operation n then cancelledR st
    else updAuthorCountryPrompt st aid a n rest

/-- Field-choice loop of `update_book`.  `book` is the row fetched at
workflow start; `bid` is the validated id used by the update statements. -/
def updFieldLoop (st : Store) (bid : Nat) (book : Book) : List String → R
  | [] => outOfInput st
  | s :: rest =>
    let choice₀ := pyLower (pyStrip s)
    if cancel_operation choice₀ then cancelledR st
    else
      let choice := if choice₀ == "" then ("qty") else choice₀
      if choice == "qty" then updQtyLoop st bid rest
      else if choice == "title" then updTitleLoop st bid rest
      else if choice == "authorid" then updAuthorIdLoop st bid rest
      else if choice == "author" then
        match findAuthor st book.authorID with
        | some a =>
          R.print ("\nCurrent Author Name: " ++ a.name)
            (R.print ("Current Author Country: " ++ a.country ++ "\n")
              (updAuthorNamePrompt st book.authorID a rest))
        | none =>
          R.print ("Author not found for this book.\n") (updFieldLoop st bid book rest)
      else
        R.print ("Invalid field. Please choose from: qty, title, authorID, or author.\n")
          (updFieldLoop st bid book rest)

/-- Book-id prompt loop of `update_book`. -/
def updBookIdLoop (st : Store) : List String → R
  | [] => outOfInput st
  | s :: rest =>
    let t := pyStrip s
    if cancel_operation t then cancelledR st
    else if t == "" then
      R.print ("Book ID is required.\n") (updBookIdLoop st rest)
    else if !fourDigitOK t then
      R.print ("Book ID must be a 4-digit number.\n") (updBookIdLoop st rest)
    else
      let bid := pyIntDigits t
      match findBook st bid with
      | some book =>
        R.print (currentBookDetails book) (updFieldLoop st bid book rest)
      | none =>
        R.print ("No book found with that ID. Please try again.\n") (updBookIdLoop st rest)

/-- `update_book`. -/
def update_book (st : Store) (ins : List String) : R :=
  updBookIdLoop st ins

/-! ## `delete_author` -/

/-- Detail display printed before the delete-author confirmation. -/
def authorSelectedDetails (a : Author) : String :=
  "\nAuthor selected:\nID: " ++ toString a.id ++ "\nName: " ++ a.name ++
    "\nCountry: " ++ a.country ++ "\n"

/-- Confirmation loop of `delete_author` (this one does check the
cancellation token). -/
def delAuthorConfirmLoop (st : Store) (aid : Nat) : List String → R
  | [] => outOfInput st
  | s :: rest =>
    let c := pyLower (pyStrip s)
    if cancel_operation c then cancelledR st
    else if c == "yes" then
      ⟨.ok, deleteAuthorRow st aid, ["Author deleted successfully.\n"]⟩
    else if c == "no" then ⟨.ok, st, ["Deletion cancelled.\n"]⟩
    else R.print ("Please type \x27yes\x27 or \x27no\x27.") (delAuthorConfirmLoop st aid rest)

/-- Id prompt loop of `delete_author`; once an existing author is selected
the dependent-book guard runs before any confirmation prompt. -/
def delAuthorIdLoop (st : Store) : List String → R
  | [] => outOfInput st
  | s :: rest =>
    let t := pyStrip s
    if cancel_operation t then cancelledR st
    else if t == "" then
      R.print ("Author ID is required.\n") (delAuthorIdLoop st rest)
    else if !fourDigitOK t then
      R.print ("Author ID must be a 4-digit number.\n") (delAuthorIdLoop st rest)
    else
      let aid := pyIntDigits t
      match findAuthor st aid with
      | some a =>
        if !(booksByAuthor st aid).isEmpty then
          ⟨.ok, st, ["This author has books associated with them.",
                     "Please delete those books first.\n"]⟩
        else
          R.print (authorSelectedDetails a) (delAuthorConfirmLoop st aid rest)
      | none =>
        R.print ("No author found with that ID. Try again.\n") (delAuthorIdLoop st rest)

/-- `delete_author`. -/
def delete_author (st : Store) (ins : List String) : R :=
  delAuthorIdLoop st ins

/-! ## `delete_book_or_author` -/

/-- Detail display printed before the delete-book confirmation. -/
def bookSelectedDetails (b : Book) : String :=
  "\nBook selected:\nID: " ++ toString b.id ++ "\nTitle: " ++ b.title ++
    "\nAuthorID: " ++ toString b.authorID ++ "\nQuantity: " ++ toString b.qty ++ "\n"

/-- Confirmation loop of the delete-book branch.  Faithful to the source:
there is no `cancel_operation` check here, so the token `"x"` falls through
to the unrecognized-input branch and re-prompts. -/
def delBookConfirmLoop (st : Store) (bid : Nat) : List String → R
  | [] => outOfInput st
  | s :: rest =>
    let c := pyLower (pyStrip s)
    if c == "yes" then
      ⟨.ok, deleteBookRow st bid, ["Book deleted successfully.\n"]⟩
    else if c == "no" then ⟨.ok, st, ["Deletion cancelled.\n"]⟩
    else R.print ("Please type \x27yes\x27 or \x27no\x27.\n") (delBookConfirmLoop st bid rest)

/-- Book-id prompt loop of the delete-book branch. -/
def delBookIdLoop (st : Store) : List String → R
  | [] => outOfInput st
  | s :: rest =>
    let t := pyStrip s
    if cancel_operation t then cancelledR st
    else if t == "" then
      R.print ("Book ID is required.\n") (delBookIdLoop st rest)
    else if !fourDigitOK t then
      R.print ("Book ID must be a 4-digit number.\n") (delBookIdLoop st rest)
    else
      let bid := pyIntDigits t
      match findBook st bid with
      | some b =>
        R.print (bookSelectedDetails b) (delBookConfirmLoop st bid rest)
      | none =>
        R.print ("No book found with that ID.\n") (delBookIdLoop st rest)

/-- Choice loop of `delete_book_or_author`. -/
def delChoiceLoop (st : Store) : List String → R
  | [] => outOfInput st
  | s :: rest =>
    let choice := pyLower (pyStrip s)
    if cancel_operation choice then cancelledR st
    else if choice == "" then
      R.print ("Input cannot be blank.\n") (delChoiceLoop st rest)
    else if choice == "book" then delBookIdLoop st rest
    else if choice == "author" then delete_author st rest
    else
      R.print ("Invalid option. Choose \x27Book\x27 or \x27Author\x27.\n") (delChoiceLoop st rest)

/-- `delete_book_or_author`. -/
def delete_book_or_author (st : Store) (ins : List String) : R :=
  delChoiceLoop st ins

/-! ## SQLite `LIKE` and `search_books` -/

/-- All suffixes of a character list, longest first (own definition so that
the matcher is structurally recursive and kernel-computable). -/
def suffixes : List Char → List (List Char)
  | [] => [[]]
  | c :: cs => (c :: cs) :: suffixes cs

/-- SQLite `LIKE` pattern matching, ASCII-case-insensitive: `%` matches any
(possibly empty) span, `_` any single character, any other pattern
character matches itself up to ASCII case. -/
def likeM : List Char → List Char → Bool
  | [], s => s.isEmpty
  | p :: ps, s =>
    if p = '%' then (suffixes s).any (fun t => likeM ps t)
    else
      match s with
      | [] => false
      | c :: s' =>
        if p = '_' then likeM ps s'
        else (p.toLower == c.toLower) && likeM ps s'

/-- The pattern `'%' + q + '%'` built by the title search. -/
def sqlLikePat (q : String) : List Char :=
  '%' :: (q.data ++ ['%'])

/-- `SELECT * FROM book WHERE title LIKE '%q%'` followed by `fetchall()`:
the rows kept, in store iteration order (the query has no `ORDER BY`). -/
def titleMatches (st : Store) (q : String) : List Book :=
  st.books.filter (fun b => likeM (sqlLikePat q) b.title.data)

/-- Display line for one search result. -/
def bookLine (b : Book) : String :=
  "ID: " ++ toString b.id ++ " | Title: " ++ b.title ++ " | AuthorID: " ++
    toString b.authorID ++ " | Quantity: " ++ toString b.qty

/-- Detail display for a search-by-id hit. -/
def bookFoundDetails (b : Book) : String :=
  "\nBook found:\nID: " ++ toString b.id ++ "\nTitle: " ++ b.title ++
    "\nAuthorID: " ++ toString b.authorID ++ "\nQuantity: " ++ toString b.qty ++ "\n"

/-- The `search_books` loop.  Invalid or fruitless attempts fall through to
the outer prompt again, as in the source. -/
def searchLoop (st : Store) : List String → R
  | [] => outOfInput st
  | s :: rest =>
    let choice := pyLower (pyStrip s)
    if cancel_operation choice then cancelledR st
    else if choice == "" then
      R.print ("Input cannot be blank.\n") (searchLoop st rest)
    else if choice == "id" then
      match rest with
      | [] => outOfInput st
      | s₂ :: rest₂ =>
        let t := pyStrip s₂
        if cancel_operation t then cancelledR st
        else if t == "" then
          R.print ("Book ID is required.\n") (searchLoop st rest₂)
        else if !fourDigitOK t then
          R.print ("Book ID must be a 4-digit number.\n") (searchLoop st rest₂)
        else
          match findBook st (pyIntDigits t) with
          | some b => ⟨.ok, st, [bookFoundDetails b]⟩
          | none => R.print ("No book found with that ID.\n") (searchLoop st rest₂)
    else if choice == "title" then
      match rest with
      | [] => outOfInput st
      | s₂ :: rest₂ =>
        let q := pyStrip s₂
        if cancel_operation q then cancelledR st
        else if q == "" then
          R.print ("Book title is required.\n") (searchLoop st rest₂)
        else
          let found := titleMatches st q
          if !found.isEmpty then
            ⟨.ok, st, ("\nBooks found:" :: found.map bookLine) ++ [""]⟩
          else
            R.print ("No books found matching that title.\n") (searchLoop st rest₂)
    else
      R.print ("Invalid option. Please type \x27id\x27, \x27title\x27, or \x27x\x27.\n")
        (searchLoop st rest)

/-- `search_books`. -/
def search_books (st : Store) (ins : List String) : R :=
  searchLoop st ins

/-! ## Bootstrap: `create_tables`, `insert_sample_data`, module top level -/

/-- `CREATE TABLE IF NOT EXISTS ...` twice: idempotent, no effect on row
content (table existence is not part of the state model). -/
def create_tables (st : Store) : Store :=
  st

/-- The five sample book rows of `insert_sample_data`. -/
def sampleBooks : List Book :=
  [⟨3001, "A Tale of Two Cities", 1290, 30⟩,
   ⟨3002, "Harry Potter and the Philosopher\x27s Stone", 8937, 40⟩,
   ⟨3003, "The Lion, the Witch and the Wardrobe", 2356, 25⟩,
   ⟨3004, "The Lord of the Rings", 6380, 37⟩,
   ⟨3005, "Alice\x27s Adventures in Wonderland", 5620, 12⟩]

/-- The five sample author rows of `insert_sample_data`. -/
def sampleAuthors : List Author :=
  [⟨1290, "Charles Dickens", "England"⟩,
   ⟨8937, "J.K. Rowling", "England"⟩,
   ⟨2356, "C.S. Lewis", "Ireland"⟩,
   ⟨6380, "J.R.R. Tolkien", "South Africa"⟩,
   ⟨5620, "Lewis Carroll", "England"⟩]

/-- An `INSERT` into `book` hitting the primary-key constraint raises
`sqlite3.IntegrityError`; modelled as `Except`. -/
def insertBookChecked (st : Store) (b : Book) : Except String Store :=
  if (findBook st b.id).isSome then Except.error ("UNIQUE constraint failed: book.id")
  else Except.ok (insertBook st b)

/-- An `INSERT` into `author` hitting the primary-key constraint raises
`sqlite3.IntegrityError`; modelled as `Except`. -/
def insertAuthorChecked (st : Store) (a : Author) : Except String Store :=
  if (findAuthor st a.id).isSome then Except.error ("UNIQUE constraint failed: author.id")
  else Except.ok (insertAuthor st a)

/-- `insert_sample_data`: unconditionally insert the fixed sample rows
(`executemany` stops at the first failing row; the error is not caught). -/
def insert_sample_data (st : Store) : Except String Store := do
  let st ← sampleBooks.foldlM insertBookChecked st
  sampleAuthors.foldlM insertAuthorChecked st

/-- The module top level before `main_menu`: create the tables, then
unconditionally insert the sample rows. -/
def startup (st : Store) : Except String Store :=
  insert_sample_data (create_tables st)

/-- The store after a successful first run of the bootstrap. -/
def store0 : Store :=
  ⟨sampleBooks, sampleAuthors⟩

/-! ## Basic lemmas about the console model and primitives -/

@[simp] theorem R.print_outcome (m : String) (r : R) : (R.print m r).outcome = r.outcome :=
  rfl

@[simp] theorem R.print_store (m : String) (r : R) : (R.print m r).store = r.store :=
  rfl

@[simp] theorem outOfInput_store (st : Store) : (outOfInput st).store = st :=
  rfl

@[simp] theorem cancelledR_store (st : Store) : (cancelledR st).store = st :=
  rfl

theorem digitVal_le (c : Char) (h : pyIsDigitChar c = true) : digitVal c ≤ 9 := by
  unfold pyIsDigitChar at h
  unfold digitVal
  simp only [Bool.and_eq_true, decide_eq_true_eq] at h
  omega

/-- Characterization of the 4-digit id format check. -/
theorem fourDigitOK_iff (s : String) :
    fourDigitOK s = true ↔ s.data.length = 4 ∧ ∀ c ∈ s.data, pyIsDigitChar c = true := by
  unfold fourDigitOK pyIsdigit
  simp only [Bool.and_eq_true, Bool.not_eq_true', List.all_eq_true, beq_iff_eq]
  constructor
  · rintro ⟨⟨-, hall⟩, hlen⟩
    exact ⟨hlen, hall⟩
  · rintro ⟨hlen, hall⟩
    refine ⟨⟨?_, hall⟩, hlen⟩
    cases hd : s.data with
    | nil => rw [hd] at hlen; simp at hlen
    | cons c cs => simp [List.isEmpty]

theorem foldl_digits_bound :
    ∀ (l : List Char) (a : Nat), (∀ c ∈ l, pyIsDigitChar c = true) →
      l.foldl (fun n c => 10 * n + digitVal c) a ≤ (a + 1) * 10 ^ l.length - 1 := by
  intro l
  induction l with
  | nil => intro a _; simp
  | cons c cs ih =>
    intro a h
    have hc : digitVal c ≤ 9 := digitVal_le c (h c (by simp))
    have hr := ih (10 * a + digitVal c) (fun x hx => h x (by simp [hx]))
    have hpos : 1 ≤ 10 ^ cs.length := Nat.one_le_two_pow.trans (by
      exact Nat.pow_le_pow_left (by omega) _)
    have hmul : (10 * a + digitVal c + 1) * 10 ^ cs.length ≤ (a + 1) * 10 ^ (cs.length + 1) := by
      rw [pow_succ]
      calc (10 * a + digitVal c + 1) * 10 ^ cs.length
          ≤ ((a + 1) * 10) * 10 ^ cs.length := by
            apply Nat.mul_le_mul_right
            omega
        _ = (a + 1) * (10 ^ cs.length * 10) := by ring
    simp only [List.foldl_cons, List.length_cons]
    omega

/-- An id accepted by the 4-digit format check parses to a value below
10000 (but possibly below 1000: leading zeros are accepted). -/
theorem fourDigitOK_val_le (s : String) (h : fourDigitOK s = true) : pyIntDigits s ≤ 9999 := by
  obtain ⟨hlen, hall⟩ := (fourDigitOK_iff s).1 h
  have := foldl_digits_bound s.data 0 hall
  unfold pyIntDigits
  rw [hlen] at this
  simpa using this

theorem foldl_digits_eq_ofDigits :
    ∀ (l : List Char) (a : Nat),
      l.foldl (fun n c => 10 * n + digitVal c) a
        = a * 10 ^ l.length + Nat.ofDigits 10 ((l.map digitVal).reverse) := by
  intro l
  induction l with
  | nil => intro a; simp [Nat.ofDigits]
  | cons c cs ih =>
    intro a
    simp only [List.foldl_cons, List.map_cons, List.reverse_cons, List.length_cons]
    rw [ih, Nat.ofDigits_append]
    simp only [Nat.ofDigits_singleton, List.length_reverse, List.length_map, pow_succ]
    ring

/-- `int` on a digit string returns the number whose decimal digits are the
characters of the string (most significant first). -/
theorem pyIntDigits_eq_ofDigits (s : String) :
    pyIntDigits s = Nat.ofDigits 10 ((s.data.map digitVal).reverse) := by
  unfold pyIntDigits
  rw [foldl_digits_eq_ofDigits]
  simp

theorem findAuthor_isSome_iff (st : Store) (aid : Nat) :
    (findAuthor st aid).isSome = true ↔ ∃ a ∈ st.authors, a.id = aid := by
  unfold findAuthor
  rw [List.find?_isSome]
  simp [beq_iff_eq]

/-! ## The referential and id invariants, and the store-transition
characterization of the workflows -/

/-- Referential invariant: every book's `authorID` is the id of some stored
author. -/
def refOK (st : Store) : Prop :=
  ∀ b ∈ st.books, ∃ a ∈ st.authors, a.id = b.authorID

/-- Id invariant: every stored id is at most 9999 (the largest value a
4-digit input string can denote). -/
def idsOK (st : Store) : Prop :=
  (∀ b ∈ st.books, b.id ≤ 9999 ∧ b.authorID ≤ 9999) ∧ ∀ a ∈ st.authors, a.id ≤ 9999

/-- The store transitions a single workflow run can perform: nothing, or
exactly one of the mutations of the source, each recorded with the guard
facts that held at its call site. -/
inductive Eff (st : Store) : Store → Prop
  | same : Eff st st
  | insA (a : Author) (hid : a.id ≤ 9999) : Eff st (insertAuthor st a)
  | insB (b : Book) (hid : b.id ≤ 9999) (ha : (findAuthor st b.authorID).isSome = true) :
      Eff st (insertBook st b)
  | updQ (bid : Nat) (q : Int) : Eff st (updateBookQty st bid q)
  | updT (bid : Nat) (t : String) : Eff st (updateBookTitle st bid t)
  | updA (bid aid : Nat) (hid : aid ≤ 9999) (ha : (findAuthor st aid).isSome = true) :
      Eff st (updateBookAuthor st bid aid)
  | updNC (aid : Nat) (n c : String) : Eff st (updateAuthorNC st aid n c)
  | delB (bid : Nat) : Eff st (deleteBookRow st bid)
  | delA (aid : Nat) (hb : booksByAuthor st aid = []) : Eff st (deleteAuthorRow st aid)

/-- Every transition a workflow can perform preserves the referential
invariant. -/
theorem refOK_of_eff {st st' : Store} (e : Eff st st') (h : refOK st) : refOK st' := by
  cases e with
  | same => exact h
  | insA a hid =>
    intro b hb
    simp only [insertAuthor] at hb ⊢
    obtain ⟨x, hx, hxe⟩ := h b hb
    exact ⟨x, List.mem_append.2 (Or.inl hx), hxe⟩
  | insB b hid ha =>
    intro x hx
    simp only [insertBook] at hx ⊢
    rcases List.mem_append.1 hx with hx | hx
    · exact h x hx
    · have hxb : x = b := by simpa using hx
      subst hxb
      obtain ⟨a, haMem, haId⟩ := (findAuthor_isSome_iff st x.authorID).1 ha
      exact ⟨a, haMem, haId⟩
  | updQ bid q =>
    intro x hx
    simp only [updateBookQty] at hx ⊢
    obtain ⟨b0, hb0, hbx⟩ := List.mem_map.1 hx
    obtain ⟨a, haMem, haId⟩ := h b0 hb0
    refine ⟨a, haMem, ?_⟩
    split at hbx <;> simp [← hbx, haId]
  | updT bid t =>
    intro x hx
    simp only [updateBookTitle] at hx ⊢
    obtain ⟨b0, hb0, hbx⟩ := List.mem_map.1 hx
    obtain ⟨a, haMem, haId⟩ := h b0 hb0
    refine ⟨a, haMem, ?_⟩
    split at hbx <;> simp [← hbx, haId]
  | updA bid aid hid ha =>
    intro x hx
    simp only [updateBookAuthor] at hx ⊢
    obtain ⟨b0, hb0, hbx⟩ := List.mem_map.1 hx
    split at hbx
    · obtain ⟨a, haMem, haId⟩ := (findAuthor_isSome_iff st aid).1 ha
      exact ⟨a, haMem, by simp [← hbx, haId]⟩
    · obtain ⟨a, haMem, haId⟩ := h b0 hb0
      exact ⟨a, haMem, by simp [← hbx, haId]⟩
  | updNC aid n c =>
    intro b hb
    simp only [updateAuthorNC] at hb ⊢
    obtain ⟨a, haMem, haId⟩ := h b hb
    refine ⟨if a.id == aid then ⟨a.id, n, c⟩ else a, ?_, ?_⟩
    · exact List.mem_map_of_mem _ haMem
    · split <;> simp [haId]
  | delB bid =>
    intro b hb
    simp only [deleteBookRow] at hb ⊢
    exact h b (List.mem_of_mem_filter hb)
  | delA aid hb =>
    intro b hbMem
    simp only [deleteAuthorRow] at hbMem ⊢
    obtain ⟨a, haMem, haId⟩ := h b hbMem
    have hbne : b.authorID ≠ aid := by
      have := List.filter_eq_nil_iff.1 hb b hbMem
      simpa using this
    refine ⟨a, List.mem_filter.2 ⟨haMem, ?_⟩, haId⟩
    simp [haId, hbne]

/-- Every transition a workflow can perform preserves the id invariant. -/
theorem idsOK_of_eff {st st' : Store} (e : Eff st st') (h : idsOK st) : idsOK st' := by
  obtain ⟨hB, hA⟩ := h
  cases e with
  | same => exact ⟨hB, hA⟩
  | insA a hid =>
    refine ⟨hB, ?_⟩
    intro x hx
    simp only [insertAuthor] at hx
    rcases List.mem_append.1 hx with hx | hx
    · exact hA x hx
    · have : x = a := by simpa using hx
      subst this
      exact hid
  | insB b hid ha =>
    refine ⟨?_, hA⟩
    intro x hx
    simp only [insertBook] at hx
    rcases List.mem_append.1 hx with hx | hx
    · exact hB x hx
    · have : x = b := by simpa using hx
      subst this
      obtain ⟨a, haMem, haId⟩ := (findAuthor_isSome_iff st x.authorID).1 ha
      exact ⟨hid, haId ▸ hA a haMem⟩
  | updQ bid q =>
    refine ⟨?_, hA⟩
    intro x hx
    simp only [updateBookQty] at hx
    obtain ⟨b0, hb0, hbx⟩ := List.mem_map.1 hx
    have := hB b0 hb0
    split at hbx <;> simp [← hbx] <;> omega
  | updT bid t =>
    refine ⟨?_, hA⟩
    intro x hx
    simp only [updateBookTitle] at hx
    obtain ⟨b0, hb0, hbx⟩ := List.mem_map.1 hx
    have := hB b0 hb0
    split at hbx <;> simp [← hbx] <;> omega
  | updA bid aid hid ha =>
    refine ⟨?_, hA⟩
    intro x hx
    simp only [updateBookAuthor] at hx
    obtain ⟨b0, hb0, hbx⟩ := List.mem_map.1 hx
    have := hB b0 hb0
    split at hbx <;> simp [← hbx] <;> omega
  | updNC aid n c =>
    refine ⟨hB, ?_⟩
    intro x hx
    simp only [updateAuthorNC] at hx
    obtain ⟨a0, ha0, hax⟩ := List.mem_map.1 hx
    have := hA a0 ha0
    split at hax <;> simp [← hax] <;> omega
  | delB bid =>
    refine ⟨?_, hA⟩
    intro x hx
    exact hB x (List.mem_of_mem_filter hx)
  | delA aid hb =>
    refine ⟨hB, ?_⟩
    intro x hx
    exact hA x (List.mem_of_mem_filter hx)

/-! ## Effect characterization of each workflow -/

theorem eff_addAuthorCountry (st : Store) (aid : Nat) (hid : aid ≤ 9999) (name : String) :
    ∀ ins : List String, Eff st (addAuthorCountry st aid name ins).store := by
  intro ins
  cases ins with
  | nil => exact Eff.same
  | cons s rest =>
    simp only [addAuthorCountry]
    split
    · exact Eff.same
    · exact Eff.insA _ hid

theorem eff_addAuthorName (st : Store) (aid : Nat) (hid : aid ≤ 9999) :
    ∀ ins : List String, Eff st (addAuthorName st aid ins).store := by
  intro ins
  cases ins with
  | nil => exact Eff.same
  | cons s rest =>
    simp only [addAuthorName]
    split
    · exact Eff.same
    · exact eff_addAuthorCountry st aid hid _ rest

theorem eff_addAuthorIdLoop (st : Store) :
    ∀ ins : List String, Eff st (addAuthorIdLoop st ins).store := by
  intro ins
  induction ins with
  | nil => exact Eff.same
  | cons s rest ih =>
    simp only [addAuthorIdLoop]
    split
    · exact Eff.same
    next hx =>
      split
      · simpa using ih
      next hfmt =>
        split
        · simpa using ih
        · exact eff_addAuthorName st _ (fourDigitOK_val_le _ (by simpa using hfmt)) rest

theorem eff_add_author (st : Store) (ins : List String) :
    Eff st (add_author st ins).store :=
  eff_addAuthorIdLoop st ins

theorem eff_addBookQtyLoop (st : Store) (bid : Nat) (title : String) (aid : Nat)
    (ha : (findAuthor st aid).isSome = true) (hb : bid ≤ 9999) :
    ∀ ins : List String, Eff st (addBookQtyLoop st bid title aid ins).store := by
  intro ins
  induction ins with
  | nil => exact Eff.same
  | cons s rest ih =>
    simp only [addBookQtyLoop]
    split
    · exact Eff.same
    · split
      · simpa using ih
      · split
        · split
          · exact Eff.insB _ hb ha
          · simpa using ih
        · simpa using ih

theorem eff_addBookAuthorIdLoop (st : Store) (bid : Nat) (title : String) (hb : bid ≤ 9999) :
    ∀ ins : List String, Eff st (addBookAuthorIdLoop st bid title ins).store := by
  intro ins
  induction ins with
  | nil => exact Eff.same
  | cons s rest ih =>
    simp only [addBookAuthorIdLoop]
    split
    · exact Eff.same
    · split
      · simpa using ih
      · split
        next a heq => exact eff_addBookQtyLoop st bid title _ (by simp [heq]) hb rest
        · simpa using ih

theorem eff_addBookTitleStep (st : Store) (bid : Nat) (hb : bid ≤ 9999) :
    ∀ ins : List String, Eff st (addBookTitleStep st bid ins).store := by
  intro ins
  cases ins with
  | nil => exact Eff.same
  | cons s rest =>
    simp only [addBookTitleStep]
    split
    · exact Eff.same
    · split
      · exact Eff.same
      · exact eff_addBookAuthorIdLoop st bid _ hb rest

theorem eff_addBookIdLoop (st : Store) :
    ∀ ins : List String, Eff st (addBookIdLoop st ins).store := by
  intro ins
  induction ins with
  | nil => exact Eff.same
  | cons s rest ih =>
    simp only [addBookIdLoop]
    split
    · exact Eff.same
    · split
      · simpa using ih
      next hfmt =>
        split
        · simpa using ih
        · exact eff_addBookTitleStep st _ (fourDigitOK_val_le _ (by simpa using hfmt)) rest

theorem eff_addChoiceLoop (st : Store) :
    ∀ ins : List String, Eff st (addChoiceLoop st ins).store := by
  intro ins
  induction ins with
  | nil => exact Eff.same
  | cons s rest ih =>
    simp only [addChoiceLoop]
    split
    · exact Eff.same
    · split
      · exact eff_addBookIdLoop st rest
      · split
        · exact eff_add_author st rest
        · simpa using ih

theorem eff_add_book_or_author (st : Store) (ins : List String) :
    Eff st (add_book_or_author st ins).store :=
  eff_addChoiceLoop st ins

theorem eff_updQtyLoop (st : Store) (bid : Nat) :
    ∀ ins : List String, Eff st (updQtyLoop st bid ins).store := by
  intro ins
  induction ins with
  | nil => exact Eff.same
  | cons s rest ih =>
    simp only [updQtyLoop]
    split
    · exact Eff.same
    · split
      · simpa using ih
      · split
        · split
          · simpa using ih
          · exact Eff.updQ bid _
        · simpa using ih

theorem eff_updTitleLoop (st : Store) (bid : Nat) :
    ∀ ins : List String, Eff st (updTitleLoop st bid ins).store := by
  intro ins
  induction ins with
  | nil => exact Eff.same
  | cons s rest ih =>
    simp only [updTitleLoop]
    split
    · exact Eff.same
    · split
      · simpa using ih
      · exact Eff.updT bid _

theorem eff_updAuthorIdLoop (st : Store) (bid : Nat) :
    ∀ ins : List String, Eff st (updAuthorIdLoop st bid ins).store := by
  intro ins
  induction ins with
  | nil => exact Eff.same
  | cons s rest ih =>
    simp only [updAuthorIdLoop]
    split
    · exact Eff.same
    · split
      · simpa using ih
      · split
        · simpa using ih
        next hfmt =>
          split
          next a heq =>
            exact Eff.updA bid _ (fourDigitOK_val_le _ (by simpa using hfmt)) (by simp [heq])
          · simpa using ih

theorem eff_updAuthorCountryPrompt (st : Store) (aid : Nat) (a : Author) (newName : String) :
    ∀ ins : List String, Eff st (updAuthorCountryPrompt st aid a newName ins).store := by
  intro ins
  cases ins with
  | nil => exact Eff.same
  | cons s rest =>
    simp only [updAuthorCountryPrompt]
    split
    · exact Eff.same
    · exact Eff.updNC aid _ _

theorem eff_updAuthorNamePrompt (st : Store) (aid : Nat) (a : Author) :
    ∀ ins : List String, Eff st (updAuthorNamePrompt st aid a ins).store := by
  intro ins
  cases ins with
  | nil => exact Eff.same
  | cons s rest =>
    simp only [updAuthorNamePrompt]
    split
    · exact Eff.same
    · exact eff_updAuthorCountryPrompt st aid a _ rest

theorem eff_updFieldLoop (st : Store) (bid : Nat) (book : Book) :
    ∀ ins : List String, Eff st (updFieldLoop st bid book ins).store := by
  intro ins
  induction ins with
  | nil => exact Eff.same
  | cons s rest ih =>
    simp only [updFieldLoop]
    repeat' split
    all_goals first
      | exact Eff.same
      | (simpa using ih)
      | exact eff_updQtyLoop st bid rest
      | exact eff_updTitleLoop st bid rest
      | exact eff_updAuthorIdLoop st bid rest
      | (simpa using eff_updAuthorNamePrompt st book.authorID _ rest)

theorem eff_updBookIdLoop (st : Store) :
    ∀ ins : List String, Eff st (updBookIdLoop st ins).store := by
  intro ins
  induction ins with
  | nil => exact Eff.same
  | cons s rest ih =>
    simp only [updBookIdLoop]
    split
    · exact Eff.same
    · split
      · simpa using ih
      · split
        · simpa using ih
        · split
          · simpa using eff_updFieldLoop st _ _ rest
          · simpa using ih

theorem eff_update_book (st : Store) (ins : List String) :
    Eff st (update_book st ins).store :=
  eff_updBookIdLoop st ins

theorem eff_delAuthorConfirmLoop (st : Store) (aid : Nat)
    (hbk : booksByAuthor st aid = []) :
    ∀ ins : List String, Eff st (delAuthorConfirmLoop st aid ins).store := by
  intro ins
  induction ins with
  | nil => exact Eff.same
  | cons s rest ih =>
    simp only [delAuthorConfirmLoop]
    split
    · exact Eff.same
    · split
      · exact Eff.delA aid hbk
      · split
        · exact Eff.same
        · simpa using ih

theorem eff_delAuthorIdLoop (st : Store) :
    ∀ ins : List String, Eff st (delAuthorIdLoop st ins).store := by
  intro ins
  induction ins with
  | nil => exact Eff.same
  | cons s rest ih =>
    simp only [delAuthorIdLoop]
    split
    · exact Eff.same
    split
    · simpa using ih
    split
    · simpa using ih
    split
    next a heq =>
      split
      · exact Eff.same
      next hne =>
        have hbk : booksByAuthor st (pyIntDigits (pyStrip s)) = [] := by
          simpa [List.isEmpty_iff] using hne
        simpa using eff_delAuthorConfirmLoop st _ hbk rest
    · simpa using ih

theorem eff_delete_author (st : Store) (ins : List String) :
    Eff st (delete_author st ins).store :=
  eff_delAuthorIdLoop st ins

theorem eff_delBookConfirmLoop (st : Store) (bid : Nat) :
    ∀ ins : List String, Eff st (delBookConfirmLoop st bid ins).store := by
  intro ins
  induction ins with
  | nil => exact Eff.same
  | cons s rest ih =>
    simp only [delBookConfirmLoop]
    split
    · exact Eff.delB bid
    · split
      · exact Eff.same
      · simpa using ih

theorem eff_delBookIdLoop (st : Store) :
    ∀ ins : List String, Eff st (delBookIdLoop st ins).store := by
  intro ins
  induction ins with
  | nil => exact Eff.same
  | cons s rest ih =>
    simp only [delBookIdLoop]
    split
    · exact Eff.same
    · split
      · simpa using ih
      · split
        · simpa using ih
        · split
          · simpa using eff_delBookConfirmLoop st _ rest
          · simpa using ih

theorem eff_delChoiceLoop (st : Store) :
    ∀ ins : List String, Eff st (delChoiceLoop st ins).store := by
  intro ins
  induction ins with
  | nil => exact Eff.same
  | cons s rest ih =>
    simp only [delChoiceLoop]
    split
    · exact Eff.same
    · split
      · simpa using ih
      · split
        · exact eff_delBookIdLoop st rest
        · split
          · exact eff_delete_author st rest
          · simpa using ih

theorem eff_delete_book_or_author (st : Store) (ins : List String) :
    Eff st (delete_book_or_author st ins).store :=
  eff_delChoiceLoop st ins

/-! ## Sequences of workflow executions -/

/-- One menu-driven workflow execution: the selected mutating workflow
together with its input script. -/
inductive Op where
  | add (ins : List String)
  | upd (ins : List String)
  | del (ins : List String)

/-- Run one workflow execution and keep the resulting store. -/
def runOp (st : Store) : Op → Store
  | .add ins => (add_book_or_author st ins).store
  | .upd ins => (update_book st ins).store
  | .del ins => (delete_book_or_author st ins).store

/-- Run a sequence of workflow executions. -/
def runOps (st : Store) (ops : List Op) : Store :=
  ops.foldl runOp st

theorem eff_runOp (st : Store) (op : Op) : Eff st (runOp st op) := by
  cases op with
  | add ins => exact eff_add_book_or_author st ins
  | upd ins => exact eff_update_book st ins
  | del ins => exact eff_delete_book_or_author st ins

theorem refOK_runOps : ∀ (ops : List Op) (st : Store), refOK st → refOK (runOps st ops) := by
  intro ops
  induction ops with
  | nil => intro st h; exact h
  | cons op ops ih =>
    intro st h
    exact ih (runOp st op) (refOK_of_eff (eff_runOp st op) h)

theorem idsOK_runOps : ∀ (ops : List Op) (st : Store), idsOK st → idsOK (runOps st ops) := by
  intro ops
  induction ops with
  | nil => intro st h; exact h
  | cons op ops ih =>
    intro st h
    exact ih (runOp st op) (idsOK_of_eff (eff_runOp st op) h)

/-! ## Substring semantics of the `LIKE` pattern built by the title search -/

/-- Boolean test that `q` is an initial segment of `t`. -/
def leadsWith : List Char → List Char → Bool
  | [], _ => true
  | _ :: _, [] => false
  | a :: as, b :: bs => (a == b) && leadsWith as bs

/-- Boolean test that `q` occurs as a contiguous segment of `s` (the
"contains as a substring" notion of the specification). -/
def containsSeg (q s : List Char) : Bool :=
  (suffixes s).any (fun t => leadsWith q t)

/-- A pattern fragment with no `LIKE` wildcard characters. -/
def noWild (l : List Char) : Prop :=
  '%' ∉ l ∧ '_' ∉ l

theorem mem_suffixes : ∀ (l t : List Char), t ∈ suffixes l ↔ ∃ u, u ++ t = l := by
  intro l
  induction l with
  | nil =>
    intro t
    simp only [suffixes, List.mem_singleton]
    constructor
    · rintro rfl; exact ⟨[], rfl⟩
    · rintro ⟨u, hu⟩
      rcases List.append_eq_nil.1 hu with ⟨-, h⟩
      exact h
  | cons c cs ih =>
    intro t
    simp only [suffixes, List.mem_cons, ih]
    constructor
    · rintro (rfl | ⟨u, hu⟩)
      · exact ⟨[], rfl⟩
      · exact ⟨c :: u, by simp [hu]⟩
    · rintro ⟨u, hu⟩
      cases u with
      | nil => exact Or.inl (by simpa using hu)
      | cons c' u' =>
        simp only [List.cons_append, List.cons.injEq] at hu
        exact Or.inr ⟨u', hu.2⟩

theorem leadsWith_iff : ∀ (q t : List Char), leadsWith q t = true ↔ ∃ v, q ++ v = t := by
  intro q
  induction q with
  | nil => intro t; simp [leadsWith]
  | cons a as ih =>
    intro t
    cases t with
    | nil =>
      simp only [leadsWith]
      constructor
      · intro h; cases h
      · rintro ⟨v, hv⟩; cases hv
    | cons b bs =>
      simp only [leadsWith, Bool.and_eq_true, beq_iff_eq, ih]
      constructor
      · rintro ⟨rfl, v, rfl⟩; exact ⟨v, rfl⟩
      · rintro ⟨v, hv⟩
        simp only [List.cons_append, List.cons.injEq] at hv
        exact ⟨hv.1, v, hv.2⟩

/-- `containsSeg` is exactly occurrence as a contiguous segment. -/
theorem containsSeg_iff (q s : List Char) :
    containsSeg q s = true ↔ ∃ u v, u ++ q ++ v = s := by
  unfold containsSeg
  rw [List.any_eq_true]
  constructor
  · rintro ⟨t, ht, hq⟩
    obtain ⟨u, hu⟩ := (mem_suffixes s t).1 ht
    obtain ⟨v, hv⟩ := (leadsWith_iff q t).1 hq
    exact ⟨u, v, by rw [List.append_assoc, hv, hu]⟩
  · rintro ⟨u, v, huv⟩
    refine ⟨q ++ v, (mem_suffixes s (q ++ v)).2 ⟨u, by rw [← List.append_assoc, huv]⟩, ?_⟩
    exact (leadsWith_iff q (q ++ v)).2 ⟨v, rfl⟩

theorem likeM_pct (ps s : List Char) :
    likeM ('%' :: ps) s = (suffixes s).any (fun t => likeM ps t) := by
  simp [likeM]

theorem likeM_nil_suffixes : ∀ s : List Char, (suffixes s).any (fun t => likeM [] t) = true := by
  intro s
  induction s with
  | nil => simp [suffixes, likeM]
  | cons c cs ih => simp only [suffixes, List.any_cons, ih, Bool.or_true]

/-- A wildcard-free fragment followed by `%` matches exactly the strings it
leads, up to ASCII case. -/
theorem likeM_noWild_pct :
    ∀ (q : List Char), noWild q → ∀ t : List Char,
      likeM (q ++ ['%']) t = leadsWith (q.map Char.toLower) (t.map Char.toLower) := by
  intro q
  induction q with
  | nil =>
    intro _ t
    simp only [List.nil_append, List.map_nil]
    rw [likeM_pct, likeM_nil_suffixes]
    rfl
  | cons p ps ih =>
    intro h t
    have hp : p ≠ '%' := fun hc => h.1 (hc ▸ List.mem_cons_self p ps)
    have hu : p ≠ '_' := fun hc => h.2 (hc ▸ List.mem_cons_self p ps)
    have hps : noWild ps :=
      ⟨fun hc => h.1 (List.mem_cons_of_mem p hc), fun hc => h.2 (List.mem_cons_of_mem p hc)⟩
    cases t with
    | nil =>
      simp only [List.cons_append, List.map_cons, List.map_nil, likeM, leadsWith,
        if_neg hp]
    | cons c t' =>
      simp only [List.cons_append, List.map_cons, likeM, leadsWith, if_neg hp, if_neg hu,
        List.append_eq]
      rw [ih hps t']

theorem suffixes_map : ∀ l : List Char,
    suffixes (l.map Char.toLower) = (suffixes l).map (List.map Char.toLower) := by
  intro l
  induction l with
  | nil => simp [suffixes]
  | cons c cs ih => simp [suffixes, ih]

/-- Restricted to wildcard-free queries, the `LIKE` pattern built by the
title search tests exactly case-insensitive substring occurrence. -/
theorem likeM_noWild_eq (q s : List Char) (h : noWild q) :
    likeM ('%' :: (q ++ ['%'])) s
      = containsSeg (q.map Char.toLower) (s.map Char.toLower) := by
  rw [likeM_pct]
  unfold containsSeg
  rw [suffixes_map, List.any_map]
  exact congrArg (List.any (suffixes s)) (funext fun t => likeM_noWild_pct q h t)

theorem findBook_at_most_one (st : Store) (bid : Nat) :
    ((findBook st bid).toList).length ≤ 1 := by
  cases findBook st bid <;> simp

/-- Frame property of the author sub-choice prompts: the store either stays
unchanged or only the name/country of the author row with the captured id
are rewritten. -/
theorem updAuthorNamePrompt_frame (st : Store) (aid : Nat) (a : Author) (ins : List String) :
    ((updAuthorNamePrompt st aid a ins).store.books = st.books)
  ∧ ((updAuthorNamePrompt st aid a ins).store = st
      ∨ ∃ n c, (updAuthorNamePrompt st aid a ins).store.authors
          = st.authors.map (fun x => if x.id == aid then ⟨x.id, n, c⟩ else x)) := by
  cases ins with
  | nil => exact ⟨rfl, Or.inl rfl⟩
  | cons s rest =>
    simp only [updAuthorNamePrompt]
    split
    · exact ⟨rfl, Or.inl rfl⟩
    · cases rest with
      | nil => exact ⟨rfl, Or.inl rfl⟩
      | cons s2 rest2 =>
        simp only [updAuthorCountryPrompt]
        split
        · exact ⟨rfl, Or.inl rfl⟩
        · exact ⟨rfl, Or.inr ⟨_, _, rfl⟩⟩

instance noWild.instDec (l : List Char) : Decidable (noWild l) := by
  unfold noWild
  infer_instance

instance refOK.instDec (st : Store) : Decidable (refOK st) := by
  unfold refOK
  infer_instance

instance idsOK.instDec (st : Store) : Decidable (idsOK st) := by
  unfold idsOK
  infer_instance

/-! ## The claims -/

/-- C1: every sequence of add/update/delete workflow executions preserves
the referential invariant (every book's `authorID` is a stored author's
id); in particular the add-book path, the update-book `authorID`
sub-choice, and `delete_author` each preserve it. -/
theorem C1_referential_invariant :
    (∀ (st : Store) (ins : List String), refOK st → refOK (add_book_or_author st ins).store)
  ∧ (∀ (st : Store) (bid : Nat) (ins : List String),
      refOK st → refOK (updAuthorIdLoop st bid ins).store)
  ∧ (∀ (st : Store) (ins : List String), refOK st → refOK (delete_author st ins).store)
  ∧ (∀ (st : Store) (ops : List Op), refOK st → refOK (runOps st ops)) := by
  refine ⟨?_, ?_, ?_, ?_⟩
  · intro st ins h
    exact refOK_of_eff (eff_add_book_or_author st ins) h
  · intro st bid ins h
    exact refOK_of_eff (eff_updAuthorIdLoop st bid ins) h
  · intro st ins h
    exact refOK_of_eff (eff_delete_author st ins) h
  · intro st ops h
    exact refOK_runOps ops st h

/-- Witness for C1 at the sample store and a concrete add/delete sequence. -/
theorem C1_referential_invariant_witness :
    refOK store0
  ∧ refOK (runOps store0
      [Op.add ["book", "3999", "Dune", "1290", "5"], Op.del ["book", "3001", "yes"]]) :=
  ⟨by decide,
   C1_referential_invariant.2.2.2 store0
     [Op.add ["book", "3999", "Dune", "1290", "5"], Op.del ["book", "3001", "yes"]]
     (by decide)⟩

/-- C2 (code bug): contrary to the docstrings of `delete_book_or_author`
and `add_author` ("users can cancel at any prompt by entering x"), the
delete-book confirmation prompt does not check the cancellation token, so
after entering `"x"` there a following `"yes"` still deletes the book; and
the `add_author` name prompt stores `"x"` (title-cased to `"X"`) as the
author name instead of cancelling. -/
theorem C2_cancellation_code_bug :
    ((delete_book_or_author store0 ["book", "3001", "x", "yes"]).outcome = Outcome.ok
      ∧ findBook (delete_book_or_author store0 ["book", "3001", "x", "yes"]).store 3001 = none
      ∧ (delete_book_or_author store0 ["book", "3001", "x", "yes"]).store ≠ store0)
  ∧ findAuthor (add_author store0 ["4444", "x", "England"]).store 4444
      = some ⟨4444, "X", "England"⟩ := by
  exact ⟨⟨by decide, by decide, by decide⟩, by decide⟩

/-- C3: the 4-digit id validator accepts exactly the strings of four ASCII
digits; accepted strings parse (via `int`) to the number whose decimal
digits they are; rejected non-cancellation inputs print the format error
and re-prompt (shown for the `add_author` and add-book id loops); accepted
fresh ids flow on to the next prompt carrying the parsed value. -/
theorem C3_four_digit_validator :
    (∀ s : String,
      fourDigitOK s = true ↔ s.data.length = 4 ∧ ∀ c ∈ s.data, pyIsDigitChar c = true)
  ∧ (∀ s : String, pyIntDigits s = Nat.ofDigits 10 ((s.data.map digitVal).reverse))
  ∧ (∀ (st : Store) (s : String) (rest : List String),
      pyLower (pyStrip s) ≠ "x" → fourDigitOK (pyStrip s) = false →
      addAuthorIdLoop st (s :: rest)
        = R.print ("Author ID must be a numeric value with exactly 4 digits.\n")
            (addAuthorIdLoop st rest))
  ∧ (∀ (st : Store) (s : String) (rest : List String),
      pyLower (pyStrip s) ≠ "x" → fourDigitOK (pyStrip s) = false →
      addBookIdLoop st (s :: rest)
        = R.print ("Book ID must be a numeric value with exactly 4 digits.\n")
            (addBookIdLoop st rest))
  ∧ (∀ (st : Store) (s : String) (rest : List String),
      pyLower (pyStrip s) ≠ "x" → fourDigitOK (pyStrip s) = true →
      findAuthor st (pyIntDigits (pyStrip s)) = none →
      addAuthorIdLoop st (s :: rest) = addAuthorName st (pyIntDigits (pyStrip s)) rest) := by
  refine ⟨fourDigitOK_iff, pyIntDigits_eq_ofDigits, ?_, ?_, ?_⟩
  · intro st s rest hx hf
    simp only [addAuthorIdLoop]
    rw [if_neg (by simpa using hx), if_pos (by simp [hf])]
  · intro st s rest hx hf
    simp only [addBookIdLoop]
    rw [if_neg (by simpa [cancel_operation] using hx), if_pos (by simp [hf])]
  · intro st s rest hx hf hfind
    simp only [addAuthorIdLoop]
    rw [if_neg (by simpa using hx), if_neg (by simp [hf]), hfind]

/-- Witness for C3 at concrete inputs. -/
theorem C3_four_digit_validator_witness :
    (fourDigitOK ("1234") = true
      ↔ ("1234" : String).data.length = 4 ∧ ∀ c ∈ ("1234" : String).data, pyIsDigitChar c = true)
  ∧ (pyIntDigits ("0042") = Nat.ofDigits 10 ((("0042" : String).data.map digitVal).reverse))
  ∧ (addAuthorIdLoop store0 (("12a4") :: [])
      = R.print ("Author ID must be a numeric value with exactly 4 digits.\n")
          (addAuthorIdLoop store0 []))
  ∧ (addBookIdLoop store0 (("123") :: [])
      = R.print ("Book ID must be a numeric value with exactly 4 digits.\n")
          (addBookIdLoop store0 []))
  ∧ (addAuthorIdLoop store0 (("4444") :: [])
      = addAuthorName store0 (pyIntDigits (pyStrip ("4444"))) []) :=
  ⟨C3_four_digit_validator.1 ("1234"),
   C3_four_digit_validator.2.1 ("0042"),
   C3_four_digit_validator.2.2.1 store0 ("12a4") [] (by decide) (by decide),
   C3_four_digit_validator.2.2.2.1 store0 ("123") [] (by decide) (by decide),
   C3_four_digit_validator.2.2.2.2 store0 ("4444") [] (by decide) (by decide) (by decide)⟩

/-- C4: selecting an author with at least one referencing book in
`delete_author` prints the dependency report and returns with the store
untouched; the result does not depend on any further input, so neither the
confirmation prompt nor the delete statement is reached. -/
theorem C4_delete_author_guard (st : Store) (s : String) (rest : List String) (a : Author)
    (hx : pyLower (pyStrip s) ≠ "x")
    (hf : fourDigitOK (pyStrip s) = true)
    (hfind : findAuthor st (pyIntDigits (pyStrip s)) = some a)
    (hdep : booksByAuthor st (pyIntDigits (pyStrip s)) ≠ []) :
    delete_author st (s :: rest)
      = ⟨Outcome.ok, st,
         ["This author has books associated with them.",
          "Please delete those books first.\n"]⟩ := by
  have hne : ¬((pyStrip s == "") = true) := by
    intro hcon
    rw [beq_iff_eq] at hcon
    rw [hcon] at hf
    exact absurd hf (by decide)
  unfold delete_author
  simp only [delAuthorIdLoop]
  rw [if_neg (by simpa [cancel_operation] using hx), if_neg hne, if_neg (by simp [hf])]
  simp only [hfind]
  rw [if_pos (show (!(booksByAuthor st (pyIntDigits (pyStrip s))).isEmpty) = true by
    simpa [List.isEmpty_iff] using hdep)]

/-- Witness for C4: author 1290 of the sample store has book 3001. -/
theorem C4_delete_author_guard_witness :
    delete_author store0 (("1290") :: [])
      = ⟨Outcome.ok, store0,
         ["This author has books associated with them.",
          "Please delete those books first.\n"]⟩ :=
  C4_delete_author_guard store0 ("1290") [] ⟨1290, "Charles Dickens", "England"⟩
    (by decide) (by decide) (by decide) (by decide)

/-- C5 counterexample: in the add-book workflow one empty title input makes
the whole workflow return at once (store unchanged, the following valid
inputs never read), instead of looping at the title prompt as claimed. -/
theorem C5_cx_empty_title_abandons :
    (add_book_or_author store0 ["book", "3999", "", "Dune", "1290", "5"]).outcome = Outcome.ok
  ∧ (add_book_or_author store0 ["book", "3999", "", "Dune", "1290", "5"]).store = store0
  ∧ (add_book_or_author store0 ["book", "3999", "", "Dune", "1290", "5"]).out
      = ["Book title is required.\n"] := by
  exact ⟨by decide, by decide, by decide⟩

/-- C5 (amended): only the update-book title prompt loops on input that
strips to empty (printing its error and re-prompting); the add-book title
prompt and the `add_author` name and country prompts print their
kind-specific error and abandon the whole workflow without mutating the
store. -/
theorem C5_empty_input_behaviour :
    (∀ (st : Store) (bid : Nat) (s : String) (rest : List String), pyStrip s = "" →
      updTitleLoop st bid (s :: rest)
        = R.print ("Title cannot be empty. Please try again.\n") (updTitleLoop st bid rest))
  ∧ (∀ (st : Store) (bid : Nat) (s : String) (rest : List String), pyStrip s = "" →
      addBookTitleStep st bid (s :: rest) = ⟨Outcome.ok, st, ["Book title is required.\n"]⟩)
  ∧ (∀ (st : Store) (aid : Nat) (s : String) (rest : List String), pyStrip s = "" →
      addAuthorName st aid (s :: rest) = ⟨Outcome.ok, st, ["Author name cannot be empty."]⟩)
  ∧ (∀ (st : Store) (aid : Nat) (name : String) (s : String) (rest : List String),
      pyStrip s = "" →
      addAuthorCountry st aid name (s :: rest)
        = ⟨Outcome.ok, st, ["Author country cannot be empty."]⟩) := by
  refine ⟨?_, ?_, ?_, ?_⟩
  · intro st bid s rest h
    simp only [updTitleLoop]
    rw [h]
    rfl
  · intro st bid s rest h
    simp only [addBookTitleStep]
    rw [h]
    rfl
  · intro st aid s rest h
    simp only [addAuthorName]
    rw [h]
    rfl
  · intro st aid name s rest h
    simp only [addAuthorCountry]
    rw [h]
    rfl

/-- Witness for C5 at concrete empty inputs. -/
theorem C5_empty_input_behaviour_witness :
    (updTitleLoop store0 3001 ([""])
      = R.print ("Title cannot be empty. Please try again.\n") (updTitleLoop store0 3001 []))
  ∧ (addBookTitleStep store0 3999 ([""])
      = ⟨Outcome.ok, store0, ["Book title is required.\n"]⟩)
  ∧ (addAuthorName store0 4444 ([""])
      = ⟨Outcome.ok, store0, ["Author name cannot be empty."]⟩)
  ∧ (addAuthorCountry store0 4444 ("Ann") ([""])
      = ⟨Outcome.ok, store0, ["Author country cannot be empty."]⟩) :=
  ⟨C5_empty_input_behaviour.1 store0 3001 ("") [] (by decide),
   C5_empty_input_behaviour.2.1 store0 3999 ("") [] (by decide),
   C5_empty_input_behaviour.2.2.1 store0 4444 ("") [] (by decide),
   C5_empty_input_behaviour.2.2.2 store0 4444 ("Ann") ("") [] (by decide)⟩

/-- C6: the bootstrap unconditionally re-inserts the fixed sample rows;
the first run on an empty store succeeds, while any run on a store already
holding book id 3001 (in particular every run after the first) stops with
an uncaught primary-key-violation error. -/
theorem C6_bootstrap_reseed :
    startup Store.empty = Except.ok store0
  ∧ startup store0 = Except.error ("UNIQUE constraint failed: book.id")
  ∧ (∀ st : Store, (findBook st 3001).isSome = true →
      insert_sample_data st = Except.error ("UNIQUE constraint failed: book.id")) := by
  refine ⟨by rfl, by rfl, ?_⟩
  intro st h
  have h1 : insertBookChecked st ⟨3001, "A Tale of Two Cities", 1290, 30⟩
      = Except.error ("UNIQUE constraint failed: book.id") := by
    unfold insertBookChecked
    rw [if_pos h]
  unfold insert_sample_data sampleBooks
  simp only [List.foldlM_cons, h1]
  rfl

/-- Witness for C6: the second bootstrap run fails. -/
theorem C6_bootstrap_reseed_witness :
    insert_sample_data store0 = Except.error ("UNIQUE constraint failed: book.id") :=
  C6_bootstrap_reseed.2.2 store0 (by decide)

/-- C7 counterexample: the validator accepts the leading-zero string
`"0042"`, and the add-author workflow stores the integer 42, which is not a
4-digit positive integer (it is below 1000). -/
theorem C7_cx_leading_zero_id :
    (add_author Store.empty ["0042", "john", "france"]).store.authors
      = [⟨42, "John", "France"⟩]
  ∧ 42 < 1000 := by
  exact ⟨by decide, by decide⟩

/-- C7 (amended): every id accepted by the 4-digit format check parses to a
value at most 9999 (but possibly with fewer than four significant digits,
since leading zeros are accepted), and every sequence of add/update/delete
workflow executions preserves the invariant that all stored book ids,
author ids and book `authorID` fields are at most 9999. -/
theorem C7_id_bounds :
    (∀ s : String, fourDigitOK s = true → pyIntDigits s ≤ 9999)
  ∧ (∀ (st : Store) (ops : List Op), idsOK st → idsOK (runOps st ops)) :=
  ⟨fourDigitOK_val_le, fun st ops h => idsOK_runOps ops st h⟩

/-- Witness for C7 at a concrete input and run. -/
theorem C7_id_bounds_witness :
    pyIntDigits ("0042") ≤ 9999
  ∧ idsOK (runOps store0 [Op.add ["author", "4444", "Ann", "Peru"]]) :=
  ⟨C7_id_bounds.1 ("0042") (by decide),
   C7_id_bounds.2 store0 [Op.add ["author", "4444", "Ann", "Peru"]] (by decide)⟩

/-- C8 counterexample: for the query `"%"` the title search returns every
book of the sample store, although `"%"` does not occur as a substring of
(for instance) the first title — `LIKE` treats `%` as a wildcard, so the
result set is not "exactly the books whose title contains q". -/
theorem C8_cx_wildcard_query :
    titleMatches store0 ("%") = store0.books
  ∧ containsSeg (("%" : String).data) (("A Tale of Two Cities" : String).data) = false := by
  exact ⟨by decide, by decide⟩

/-- C8 (amended): for query strings without the `LIKE` wildcards `%` and
`_`, the title search returns exactly the books whose title contains the
query up to ASCII case, kept in store iteration order (a filter of the
book list); and search by id yields at most one record. -/
theorem C8_title_search :
    (∀ (st : Store) (q : String), noWild q.data →
      titleMatches st q
        = st.books.filter
            (fun b => containsSeg (q.data.map Char.toLower) (b.title.data.map Char.toLower)))
  ∧ (∀ q s : List Char, containsSeg q s = true ↔ ∃ u v, u ++ q ++ v = s)
  ∧ (∀ (st : Store) (bid : Nat), ((findBook st bid).toList).length ≤ 1) := by
  refine ⟨?_, containsSeg_iff, findBook_at_most_one⟩
  intro st q h
  unfold titleMatches sqlLikePat
  exact List.filter_congr (fun b _ => likeM_noWild_eq q.data b.title.data h)

/-- Witness for C8 at the sample store and the query `"of"`. -/
theorem C8_title_search_witness :
    titleMatches store0 ("of")
      = store0.books.filter
          (fun b => containsSeg ((("of" : String)).data.map Char.toLower)
            (b.title.data.map Char.toLower)) :=
  C8_title_search.1 store0 ("of") (by decide)

/-- C9 counterexample: the update-book author sub-choice stores the
stripped input verbatim — author 1290 ends up named "charles dickens",
not the title-cased "Charles Dickens" the claim requires at that call
site. -/
theorem C9_cx_update_author_not_titlecased :
    findAuthor (update_book store0 ["3001", "author", "charles dickens", "france"]).store 1290
      = some ⟨1290, "charles dickens", "france"⟩
  ∧ pyTitle ("charles dickens") = "Charles Dickens"
  ∧ ("charles dickens" : String) ≠ "Charles Dickens" := by
  exact ⟨by decide, by decide, by decide⟩

/-- C9 (amended): title-casing is applied to the author name and country in
the `add_author` workflow only; the update-book author sub-choice stores
the stripped inputs verbatim (blank keeping the current value), and book
titles are stored stripped but never title-cased. -/
theorem C9_titlecasing_sites :
    (∀ (st : Store) (aid : Nat) (n c : String) (rest : List String),
      pyTitle (pyStrip n) ≠ "" → pyTitle (pyStrip c) ≠ "" →
      addAuthorName st aid (n :: c :: rest)
        = ⟨Outcome.ok, insertAuthor st ⟨aid, pyTitle (pyStrip n), pyTitle (pyStrip c)⟩,
           ["Author added successfully.\n"]⟩)
  ∧ (∀ (st : Store) (aid : Nat) (a : Author) (n c : String) (rest : List String),
      pyLower (pyStrip n) ≠ "x" → pyLower (pyStrip c) ≠ "x" →
      updAuthorNamePrompt st aid a (n :: c :: rest)
        = ⟨Outcome.ok,
           updateAuthorNC st aid
             (if pyStrip n == "" then a.name else pyStrip n)
             (if pyStrip c == "" then a.country else pyStrip c),
           ["Author information updated successfully.\n"]⟩)
  ∧ (∀ (st : Store) (bid : Nat) (s : String) (rest : List String),
      pyLower (pyStrip s) ≠ "x" → pyStrip s ≠ "" →
      addBookTitleStep st bid (s :: rest) = addBookAuthorIdLoop st bid (pyStrip s) rest)
  ∧ (∀ (st : Store) (bid : Nat) (s : String) (rest : List String),
      pyLower (pyStrip s) ≠ "x" → pyStrip s ≠ "" →
      updTitleLoop st bid (s :: rest)
        = ⟨Outcome.ok, updateBookTitle st bid (pyStrip s),
           ["Title updated successfully.\n"]⟩) := by
  refine ⟨?_, ?_, ?_, ?_⟩
  · intro st aid n c rest hn hc
    simp only [addAuthorName, addAuthorCountry]
    rw [if_neg (by simpa using hn), if_neg (by simpa using hc)]
  · intro st aid a n c rest hn hc
    simp only [updAuthorNamePrompt, updAuthorCountryPrompt]
    rw [if_neg (by simpa [cancel_operation] using hn),
      if_neg (by simpa [cancel_operation] using hc)]
  · intro st bid s rest hx hs
    simp only [addBookTitleStep]
    rw [if_neg (by simpa [cancel_operation] using hx), if_neg (by simpa using hs)]
  · intro st bid s rest hx hs
    simp only [updTitleLoop]
    rw [if_neg (by simpa [cancel_operation] using hx), if_neg (by simpa using hs)]

/-- Witness for C9 at concrete inputs. -/
theorem C9_titlecasing_sites_witness :
    (addAuthorName store0 4444 (("ann bee") :: ("peru") :: [])
      = ⟨Outcome.ok,
         insertAuthor store0 ⟨4444, pyTitle (pyStrip ("ann bee")), pyTitle (pyStrip ("peru"))⟩,
         ["Author added successfully.\n"]⟩)
  ∧ (updAuthorNamePrompt store0 1290 ⟨1290, "Charles Dickens", "England"⟩
        (("charles dickens") :: ("france") :: [])
      = ⟨Outcome.ok,
         updateAuthorNC store0 1290
           (if pyStrip ("charles dickens") == "" then ("Charles Dickens")
            else pyStrip ("charles dickens"))
           (if pyStrip ("france") == "" then ("England") else pyStrip ("france")),
         ["Author information updated successfully.\n"]⟩)
  ∧ (addBookTitleStep store0 3999 (("Dune") :: [])
      = addBookAuthorIdLoop store0 3999 (pyStrip ("Dune")) [])
  ∧ (updTitleLoop store0 3001 (("Dune") :: [])
      = ⟨Outcome.ok, updateBookTitle store0 3001 (pyStrip ("Dune")),
         ["Title updated successfully.\n"]⟩) :=
  ⟨C9_titlecasing_sites.1 store0 4444 ("ann bee") ("peru") [] (by decide) (by decide),
   C9_titlecasing_sites.2.1 store0 1290 ⟨1290, "Charles Dickens", "England"⟩
     ("charles dickens") ("france") [] (by decide) (by decide),
   C9_titlecasing_sites.2.2.1 store0 3999 ("Dune") [] (by decide) (by decide),
   C9_titlecasing_sites.2.2.2 store0 3001 ("Dune") [] (by decide) (by decide)⟩

/-- C10: when the author of the selected book exists, the update-book
`author` sub-choice leaves every book row untouched and either leaves the
store unchanged or rewrites exactly the name and country of the author rows
whose id equals the `authorID` captured from the book at workflow start
(ids of all authors are preserved, all other author rows untouched). -/
theorem C10_update_author_frame (st : Store) (bid : Nat) (book : Book) (s : String)
    (rest : List String) (a : Author)
    (hs : pyLower (pyStrip s) = "author")
    (hfind : findAuthor st book.authorID = some a) :
    ((updFieldLoop st bid book (s :: rest)).store.books = st.books)
  ∧ ((updFieldLoop st bid book (s :: rest)).store = st
      ∨ ∃ n c, (updFieldLoop st bid book (s :: rest)).store.authors
          = st.authors.map (fun x => if x.id == book.authorID then ⟨x.id, n, c⟩ else x)) := by
  have hred : updFieldLoop st bid book (s :: rest)
      = R.print ("\nCurrent Author Name: " ++ a.name)
          (R.print ("Current Author Country: " ++ a.country ++ "\n")
            (updAuthorNamePrompt st book.authorID a rest)) := by
    simp only [updFieldLoop]
    rw [hs, hfind]
    rfl
  rw [hred]
  simpa using updAuthorNamePrompt_frame st book.authorID a rest

/-- Witness for C10 at the sample store and book 3001. -/
theorem C10_update_author_frame_witness :
    ((updFieldLoop store0 3001 ⟨3001, "A Tale of Two Cities", 1290, 30⟩
        (("author") :: ("charles dickens") :: ("france") :: [])).store.books = store0.books)
  ∧ ((updFieldLoop store0 3001 ⟨3001, "A Tale of Two Cities", 1290, 30⟩
        (("author") :: ("charles dickens") :: ("france") :: [])).store = store0
      ∨ ∃ n c, (updFieldLoop store0 3001 ⟨3001, "A Tale of Two Cities", 1290, 30⟩
          (("author") :: ("charles dickens") :: ("france") :: [])).store.authors
            = store0.authors.map
                (fun x => if x.id == (Book.mk 3001 ("A Tale of Two Cities") 1290 30).authorID
                  then ⟨x.id, n, c⟩ else x)) :=
  C10_update_author_frame store0 3001 ⟨3001, "A Tale of Two Cities", 1290, 30⟩
    ("author") [("charles dickens"), ("france")] ⟨1290, "Charles Dickens", "England"⟩
    (by decide) (by decide)
